import Mathlib

/-!
Shallow embedding of the resilient crawl engine of the shoppin-crawler
repository: the token cache of `PlatformChecker` (social_scan_platforms.py),
the normalized-outcome constructors for `PlatformResponse`, the crawler
registry and worker boundary (src/base.py, main.py), the retrying request
layer `BasePlatformCrawler._request`, the content-type guard `get_json`,
the pagination loop of `VirgioCrawler`, and the flush-once output step
`output_data`.  Theorems at the end settle the spec claims against these
definitions.
-/

namespace Crawler

/-! ### Token cache (`PlatformChecker.get_token`, social_scan_platforms.py) -/

/-- The per-instance token-cache state set up by `PlatformChecker.__init__`:
`self.prerequest_sent = False`, `self.token = None`. -/
structure CheckerState (τ : Type) where
  prerequest_sent : Bool
  token : Option τ

/-- Result of one `get_token()` call: the returned token or the raised
`QueryError(TOKEN_ERROR_MESSAGE)`, the state after the call, and how many
times the underlying `prerequest()` acquisition method was invoked. -/
structure TokenResult (τ : Type) where
  result : Except Unit τ
  state : CheckerState τ
  prerequest_calls : Nat

/-- `PlatformChecker.get_token`, with the value the adapter's `prerequest()`
would produce passed in as `prerequest` (it is consulted only when the
attempted flag is not yet set).  Mirrors the source: if `prerequest_sent`
and the token is `None`, raise; if `prerequest_sent` and present, return the
cached value with no new request; otherwise call `prerequest()` once, set
the flag, cache the result, then raise if it is `None` else return it. -/
def get_token (prerequest : Option τ) (s : CheckerState τ) : TokenResult τ :=
  if s.prerequest_sent then
    match s.token with
    | none => ⟨Except.error (), s, 0⟩
    | some t => ⟨Except.ok t, s, 0⟩
  else
    match prerequest with
    | none => ⟨Except.error (), ⟨true, prerequest⟩, 1⟩
    | some t => ⟨Except.ok t, ⟨true, prerequest⟩, 1⟩

/-- The state `PlatformChecker.__init__` leaves behind. -/
def freshChecker (τ : Type) : CheckerState τ := ⟨false, none⟩

/-! ### Normalized outcomes (`PlatformResponse` and its four constructors) -/

/-- The frozen dataclass `PlatformResponse` (platform field kept as the
platform's name string; `data` kept opaque as an optional string). -/
structure PlatformResponse where
  platform : String
  query : String
  available : Bool
  valid : Bool
  success : Bool
  message : String
  link : Option String
  data : Option String
deriving DecidableEq

/-- `PlatformChecker.response_failure`. -/
def response_failure (platform query message : String) : PlatformResponse :=
  ⟨platform, query, false, false, false, message, none, none⟩

/-- `PlatformChecker.response_available`. -/
def response_available (platform query message : String) : PlatformResponse :=
  ⟨platform, query, true, true, true, message, none, none⟩

/-- `PlatformChecker.response_unavailable`. -/
def response_unavailable (platform query message : String)
    (link data : Option String) : PlatformResponse :=
  ⟨platform, query, false, true, true, message, link, data⟩

/-- `PlatformChecker.response_invalid`. -/
def response_invalid (platform query message : String) : PlatformResponse :=
  ⟨platform, query, false, false, true, message, none, none⟩

/-- The flag invariant: `available` implies `valid`, `valid` implies
`success`. -/
def flag_invariant (r : PlatformResponse) : Bool :=
  (!r.available || r.valid) && (!r.valid || r.success)

/-- The (available, valid, success) triple of a response. -/
def flags (r : PlatformResponse) : Bool × Bool × Bool :=
  (r.available, r.valid, r.success)

/-! ### Registry and worker boundary (`CrawlerRegistry`, `run_crawler`) -/

/-- What a registered crawler's `safe_run()` does when the worker invokes
it: completes normally or raises. -/
abbrev Behavior := Except Unit Unit

/-- A crawler's constructor-and-run behavior succeeded without raising. -/
def succeeded : Behavior → Bool
  | Except.ok _ => true
  | Except.error _ => false

/-- The `CrawlerRegistry._crawlers` dict: registered (upper-cased) name to
the crawler's behavior.  Lookup scans from the head, so prepending models
dict assignment. -/
abbrev Registry := List (String × Behavior)

/-- Python's `str.upper()` on the ASCII names used by the registry. -/
def py_upper (s : String) : String := ⟨s.data.map Char.toUpper⟩

/-- `CrawlerRegistry.register`: stores the class under `name.upper()`. -/
def register (reg : Registry) (name : String) (b : Behavior) : Registry :=
  (py_upper name, b) :: reg

/-- `CrawlerRegistry.get_crawler`: `self._crawlers.get(name.upper())`. -/
def get_crawler (reg : Registry) (name : String) : Option Behavior :=
  (reg.find? (fun p => p.1 == py_upper name)).map (fun p => p.2)

/-- `CrawlerRegistry.available_crawlers`: the registered names. -/
def available_crawlers (reg : Registry) : List String :=
  reg.map (fun p => p.1)

/-- An exception escaping the `try` block of `main.run_crawler`:
the `KeyError(crawler_name)` raised when lookup returns `None`, or an
exception propagating out of the crawler's `safe_run()`. -/
inductive PyExc where
  | keyError (name : String)
  | crawlerExc
deriving DecidableEq

/-- The body of `main.run_crawler`'s `try` block: resolve the name, raise
`KeyError` if absent, otherwise construct and `safe_run()` the crawler and
return `(crawler_name, True)`. -/
def run_crawler_body (reg : Registry) (name : String) :
    Except PyExc (String × Bool) :=
  match get_crawler reg name with
  | none => Except.error (PyExc.keyError name)
  | some (Except.error _) => Except.error PyExc.crawlerExc
  | some (Except.ok _) => Except.ok (name, true)

/-- `main.run_crawler`: the `except Exception` clause catches anything the
body raised, logs it, and returns `(crawler_name, False)`. -/
def run_crawler (reg : Registry) (name : String) : String × Bool :=
  match run_crawler_body reg name with
  | Except.ok o => o
  | Except.error _ => (name, false)

/-- `main.main` in `--all` mode: submit `run_crawler` for every available
crawler name and collect every worker's `(name, success)` outcome. -/
def orchestrate (reg : Registry) : List (String × Bool) :=
  (available_crawlers reg).map (run_crawler reg)

/-! ### Resilient request layer (`BasePlatformCrawler._request`, src/base.py)

One loop iteration issues one HTTP call.  `att i` is what the call made
with `retry_count = i` produces: a response, or a transport-level fault
(`requests.exceptions.RequestException`) raised inside the `try` block.
`check r` is `self.check_error(r)`: some overrides (tatacliq,
nykaafashion) decode the body first and can themselves raise `QueryError`,
so it returns `Except Unit Bool`.  `D` is `self.DELAY`; `jit i` is the
`random.random()` drawn for the iteration's jittered delay. -/

/-- What `_request` raises: the `QueryError("Failed after ...")` after the
`while` loop exhausts `MAX_RETRIES`, or the caught exception re-raised when
`retry_count == MAX_RETRIES` inside the `except` clause. -/
inductive ReqFailure where
  | exhausted
  | reraised
deriving DecidableEq

/-- Result of one `_request` call: the returned response or the raised
error, the number of HTTP calls issued, and the trace of `sleep` durations
in order. -/
structure ReqResult (ρ : Type) where
  outcome : Except ReqFailure ρ
  calls : Nat
  sleeps : List ℚ

/-- The `while retry_count < MAX_RETRIES` loop of `_request`, with
`fuel = maxR - rc` making the loop measure explicit and `rc` the current
`retry_count`.  On a `check_error`-classified error: `retry_count += 1`
then `sleep(DELAY * (retry_count + 1))` and continue.  On a raised fault:
`retry_count += 1`; re-raise if `retry_count == MAX_RETRIES`, else the same
backoff sleep and continue.  On success: sleep the iteration's jittered
delay `DELAY * (0.5 + random())` and return the response. -/
def requestAux (check : ρ → Except Unit Bool) (att : Nat → Except Unit ρ)
    (D : ℚ) (jit : Nat → ℚ) (maxR : Nat) : Nat → Nat → ReqResult ρ
  | 0, _ => ⟨Except.error ReqFailure.exhausted, 0, []⟩
  | fuel + 1, rc =>
    match att rc with
    | Except.error _ =>
      if rc + 1 = maxR then ⟨Except.error ReqFailure.reraised, 1, []⟩
      else
        let rest := requestAux check att D jit maxR fuel (rc + 1)
        ⟨rest.outcome, rest.calls + 1, D * ((rc : ℚ) + 2) :: rest.sleeps⟩
    | Except.ok r =>
      match check r with
      | Except.error _ =>
        if rc + 1 = maxR then ⟨Except.error ReqFailure.reraised, 1, []⟩
        else
          let rest := requestAux check att D jit maxR fuel (rc + 1)
          ⟨rest.outcome, rest.calls + 1, D * ((rc : ℚ) + 2) :: rest.sleeps⟩
      | Except.ok true =>
        let rest := requestAux check att D jit maxR fuel (rc + 1)
        ⟨rest.outcome, rest.calls + 1, D * ((rc : ℚ) + 2) :: rest.sleeps⟩
      | Except.ok false => ⟨Except.ok r, 1, [D * (1/2 + jit rc)]⟩

/-- `BasePlatformCrawler._request`: the loop entered with
`retry_count = 0`. -/
def request_layer (check : ρ → Except Unit Bool) (att : Nat → Except Unit ρ)
    (D : ℚ) (jit : Nat → ℚ) (maxR : Nat) : ReqResult ρ :=
  requestAux check att D jit maxR maxR 0

/-- Attempt `i` is classified as failing: the HTTP call raised, or
`check_error` raised, or `check_error` returned `True`. -/
def attempt_fails (check : ρ → Except Unit Bool) (att : Nat → Except Unit ρ)
    (i : Nat) : Bool :=
  match att i with
  | Except.error _ => true
  | Except.ok r =>
    match check r with
    | Except.error _ => true
    | Except.ok b => b

/-! ### Content-type guard (`get_json`) and the virgio page fetch -/

/-- An HTTP response as `get_json` sees it: its `Content-Type` header and
its (already decoded, opaque) JSON body. -/
structure HttpResponse where
  contentType : String
  body : Nat
deriving DecidableEq

/-- `BasePlatformCrawler.get_json` (identical in `PlatformChecker`): raise
`QueryError(UNEXPECTED_CONTENT_TYPE_ERROR_MESSAGE)` unless the header
starts with `application/json`, else return the decoded body. -/
def get_json (r : HttpResponse) : Except Unit Nat :=
  if r.contentType.startsWith "application/json" then Except.ok r.body
  else Except.error ()

/-- `VirgioCrawler.check_error`: `super().check_error(response)`, whose
body is `return False`. -/
def virgio_check_error : HttpResponse → Except Unit Bool :=
  fun _ => Except.ok false

/-- `TataCliqCrawler.check_error`: `json_body = self.get_json(response)`
(so a content-type mismatch raises inside the request layer's `try`),
then a data-driven error flag on the decoded body. -/
def tatacliq_check_error (error_flag : Nat → Bool) (r : HttpResponse) :
    Except Unit Bool :=
  match get_json r with
  | Except.error e => Except.error e
  | Except.ok j => Except.ok (error_flag j)

/-- What escapes one `VirgioCrawler.crawl` page fetch. -/
inductive FetchError where
  | requestFailed
  | contentType
deriving DecidableEq

/-- The `self.get(...)` then `self.get_json(r)` prefix of
`VirgioCrawler.crawl`: the request layer runs first and returns a
response; only then is `get_json` applied to it.  Returns the decoded body
or the escaping error, paired with the number of HTTP calls issued. -/
def virgio_fetch (att : Nat → Except Unit HttpResponse) (D : ℚ)
    (jit : Nat → ℚ) (maxR : Nat) : Except FetchError Nat × Nat :=
  let req := request_layer virgio_check_error att D jit maxR
  match req.outcome with
  | Except.error _ => (Except.error FetchError.requestFailed, req.calls)
  | Except.ok r =>
    match get_json r with
    | Except.error _ => (Except.error FetchError.contentType, req.calls)
    | Except.ok j => (Except.ok j, req.calls)

/-! ### Pagination loop (`VirgioCrawler.run` / `crawl`) and output
(`BasePlatformCrawler.output_data`) -/

/-- One page as `VirgioCrawler.crawl` reads it out of the decoded JSON:
the `nodes` record list and the `pageInfo["hasNextPage"]` flag. -/
structure Page (α : Type) where
  nodes : List α
  hasNextPage : Bool
deriving DecidableEq

/-- The body of `VirgioCrawler.crawl` after a successful fetch: if `nodes`
is non-empty, parse (append to the accumulator) and return
`hasNextPage` (advancing the cursor when true); else return `False`. -/
def crawl_step [DecidableEq α] (p : Page α) (acc : List α) : List α × Bool :=
  if p.nodes = [] then (acc, false)
  else (acc ++ p.nodes, p.hasNextPage)

/-- The `while True` loop of `VirgioCrawler.run`: call `crawl()` on the
next page, stop when it returns `False`.  Returns the number of fetch
calls made and the final accumulator. -/
def run_pages [DecidableEq α] : List (Page α) → List α → Nat × List α
  | [], acc => (0, acc)
  | p :: rest, acc =>
    match crawl_step p acc with
    | (acc2, false) => (1, acc2)
    | (acc2, true) =>
      let r := run_pages rest acc2
      (r.1 + 1, r.2)

/-- `pandas.DataFrame.drop_duplicates` keeping the first occurrence of
each record, with `seen` the records already kept. -/
def drop_duplicates [DecidableEq α] (seen : List α) : List α → List α
  | [] => []
  | a :: rest =>
    if a ∈ seen then drop_duplicates seen rest
    else a :: drop_duplicates (a :: seen) rest

/-- The crawler state `output_data` touches: `self.DATAFRAME`,
`self.data_saved`, and (for the model) how many CSV files have been
written. -/
structure OutputState (α : Type) where
  dataframe : List α
  data_saved : Bool
  files_written : Nat
deriving DecidableEq

/-- `BasePlatformCrawler.output_data`: if the dataframe is empty or
already saved, log and return; else drop duplicates in place, write the
CSV, and set `data_saved`. -/
def output_data [DecidableEq α] (s : OutputState α) : OutputState α :=
  if s.dataframe = [] ∨ s.data_saved then s
  else ⟨drop_duplicates [] s.dataframe, true, s.files_written + 1⟩

/-! ## Theorems -/

/-- C10: every `PlatformResponse` produced by the four normalized-outcome
constructors keeps the flag invariant (available implies valid, valid
implies success); their (available, valid, success) triples are
respectively (F,F,F), (T,T,T), (F,T,T) and (F,F,T), i.e. each lies in the
four allowed combinations. -/
theorem c10_constructor_flag_invariant (platform query message : String)
    (link data : Option String) :
    flags (response_failure platform query message) = (false, false, false) ∧
    flags (response_available platform query message) = (true, true, true) ∧
    flags (response_unavailable platform query message link data) =
      (false, true, true) ∧
    flags (response_invalid platform query message) = (false, false, true) ∧
    flag_invariant (response_failure platform query message) = true ∧
    flag_invariant (response_available platform query message) = true ∧
    flag_invariant (response_unavailable platform query message link data) = true ∧
    flag_invariant (response_invalid platform query message) = true :=
  ⟨rfl, rfl, rfl, rfl, rfl, rfl, rfl, rfl⟩

/-- C2: starting from the fresh state, a second `get_token()` call issues
no new acquisition request, the two calls together invoke `prerequest` at
most once, and the second call's result is identical to the first's (in
particular the same cached token value when one was acquired). -/
theorem c2_token_cached_once (τ : Type) (p : Option τ) :
    (get_token p ((get_token p (freshChecker τ)).state)).prerequest_calls = 0 ∧
    (get_token p (freshChecker τ)).prerequest_calls ≤ 1 ∧
    (get_token p ((get_token p (freshChecker τ)).state)).result =
      (get_token p (freshChecker τ)).result := by
  cases p <;> exact ⟨rfl, Nat.le_refl 1, rfl⟩

/-- C6 counterexample: when acquisition returns none, the first
`get_token()` call does not complete — it already raises
`QueryError(TOKEN_ERROR_MESSAGE)`, contrary to the claim that the failure
surfaces only on the next call. -/
theorem c6_first_call_already_raises :
    (get_token (none : Option Nat) (freshChecker Nat)).result =
      Except.error () :=
  rfl

/-- C6 amended: when acquisition returns none on the first `get_token()`
call, the attempted flag is set and the none result cached, but that first
call itself already fails with `TokenError`; every later call fails the
same way with zero further acquisition attempts and an unchanged state
(the failed fetch is terminal for the instance). -/
theorem c6_failed_fetch_terminal (τ : Type) :
    (get_token (none : Option τ) (freshChecker τ)).result = Except.error () ∧
    (get_token (none : Option τ) (freshChecker τ)).state.prerequest_sent = true ∧
    (get_token (none : Option τ) (freshChecker τ)).state.token = none ∧
    (get_token none ((get_token (none : Option τ) (freshChecker τ)).state)).result =
      Except.error () ∧
    (get_token none ((get_token (none : Option τ) (freshChecker τ)).state)).prerequest_calls = 0 ∧
    (get_token none ((get_token (none : Option τ) (freshChecker τ)).state)).state =
      (get_token (none : Option τ) (freshChecker τ)).state :=
  ⟨rfl, rfl, rfl, rfl, rfl, rfl⟩

/-- C3: on the three-page scenario [ {ids 1,2}, {ids 2,3}, {empty} ] the
pagination loop makes exactly 3 fetch calls and terminates, the raw
accumulator is the concatenation of the pages' records, and the flushed
(deduplicated) accumulator is exactly the records 1, 2, 3 with no
duplicate. -/
theorem c3_pagination_scenario :
    run_pages [⟨[1, 2], true⟩, ⟨[2, 3], true⟩, ⟨([] : List Nat), false⟩] [] =
      (3, [1, 2, 2, 3]) ∧
    drop_duplicates []
      (run_pages [⟨[1, 2], true⟩, ⟨[2, 3], true⟩, ⟨([] : List Nat), false⟩] []).2 =
      [1, 2, 3] :=
  ⟨rfl, rfl⟩

/-- C4: starting from an unflushed state with a non-empty accumulator,
calling `output_data` twice writes the output file exactly once, and the
second call is a no-op because `data_saved` was set by the first. -/
theorem c4_flush_at_most_once (df : List Nat) (h : df ≠ []) :
    output_data (output_data (⟨df, false, 0⟩ : OutputState Nat)) =
      output_data (⟨df, false, 0⟩ : OutputState Nat) ∧
    (output_data (⟨df, false, 0⟩ : OutputState Nat)).files_written = 1 := by
  have h1 : output_data (⟨df, false, 0⟩ : OutputState Nat) =
      ⟨drop_duplicates [] df, true, 1⟩ := by
    simp [output_data, h]
  rw [h1]
  exact ⟨by simp [output_data], rfl⟩

/-- Witness for C4 at the accumulator [1, 2, 2]. -/
theorem c4_flush_at_most_once_witness :
    ([1, 2, 2] : List Nat) ≠ [] ∧
    (output_data (output_data (⟨[1, 2, 2], false, 0⟩ : OutputState Nat)) =
        output_data (⟨[1, 2, 2], false, 0⟩ : OutputState Nat) ∧
      (output_data (⟨[1, 2, 2], false, 0⟩ : OutputState Nat)).files_written = 1) :=
  ⟨by decide, c4_flush_at_most_once [1, 2, 2] (by decide)⟩

/-- Helper: when every attempt in range fails, the request loop consumes
all its fuel — one HTTP call per unit of fuel — and ends in a raised
error. -/
theorem requestAux_all_fail {ρ : Type} (check : ρ → Except Unit Bool)
    (att : Nat → Except Unit ρ) (D : ℚ) (jit : Nat → ℚ) (maxR : Nat)
    (hfail : ∀ i, i < maxR → attempt_fails check att i = true) :
    ∀ fuel rc, rc + fuel = maxR →
      (requestAux check att D jit maxR fuel rc).calls = fuel ∧
      ∃ e, (requestAux check att D jit maxR fuel rc).outcome = Except.error e := by
  intro fuel
  induction fuel with
  | zero =>
    intro rc _
    exact ⟨rfl, ⟨ReqFailure.exhausted, rfl⟩⟩
  | succ n ih =>
    intro rc hsum
    have hrc : rc < maxR := by omega
    have hf := hfail rc hrc
    unfold attempt_fails at hf
    cases hatt : att rc with
    | error e =>
      by_cases hm : rc + 1 = maxR
      · have hn : n = 0 := by omega
        subst hn
        simp [requestAux, hatt, hm]
      · obtain ⟨hc, he⟩ := ih (rc + 1) (by omega)
        simp [requestAux, hatt, hm, hc, he]
    | ok r =>
      cases hchk : check r with
      | error e =>
        by_cases hm : rc + 1 = maxR
        · have hn : n = 0 := by omega
          subst hn
          simp [requestAux, hatt, hchk, hm]
        · obtain ⟨hc, he⟩ := ih (rc + 1) (by omega)
          simp [requestAux, hatt, hchk, hm, hc, he]
      | ok b =>
        simp only [hatt, hchk] at hf
        subst hf
        obtain ⟨hc, he⟩ := ih (rc + 1) (by omega)
        simp [requestAux, hatt, hchk, hc, he]

/-- Helper: an attempt whose HTTP call returns a response on which
`check_error` raises is a failing attempt. -/
theorem attempt_fails_check_raises {ρ : Type} (check : ρ → Except Unit Bool)
    (att : Nat → Except Unit ρ) (i : Nat) (r : ρ)
    (hatt : att i = Except.ok r) (hchk : check r = Except.error ()) :
    attempt_fails check att i = true := by
  unfold attempt_fails
  simp only [hatt, hchk]

/-- C1: when every attempt is classified as failing — whether the response
fails `check_error`, `check_error` raises, or the call raises a
transport-level fault — `_request` issues exactly `MAX_RETRIES` HTTP
attempts and only then raises (`QueryError` after the loop, or the
re-raised caught exception); no error escapes before the ceiling. -/
theorem c1_request_retries_to_ceiling (ρ : Type)
    (check : ρ → Except Unit Bool) (att : Nat → Except Unit ρ)
    (D : ℚ) (jit : Nat → ℚ) (maxR : Nat)
    (hfail : ∀ i, i < maxR → attempt_fails check att i = true) :
    (request_layer check att D jit maxR).calls = maxR ∧
    ∃ e, (request_layer check att D jit maxR).outcome = Except.error e :=
  requestAux_all_fail check att D jit maxR hfail maxR 0 (by omega)

/-- Witness for C1 at the default ceiling 3, with every response
classified as an error. -/
theorem c1_request_retries_to_ceiling_witness :
    (∀ i, i < 3 →
      attempt_fails (fun _ : Nat => Except.ok true) (fun i => Except.ok i) i = true) ∧
    ((request_layer (fun _ : Nat => Except.ok true) (fun i => Except.ok i)
        2 (fun _ => 0) 3).calls = 3 ∧
      ∃ e, (request_layer (fun _ : Nat => Except.ok true) (fun i => Except.ok i)
        2 (fun _ => 0) 3).outcome = Except.error e) :=
  ⟨by decide,
    c1_request_retries_to_ceiling Nat (fun _ => Except.ok true)
      (fun i => Except.ok i) 2 (fun _ => 0) 3 (by decide)⟩

/-- C8: with ceiling 3 and a handler that errors on attempts 1 and 2 and
succeeds on attempt 3, `_request` returns the attempt-3 response after 3
HTTP calls, sleeping twice between attempts with increasing linear backoff
(`DELAY` times the incremented retry counter plus one: 2·2 then 2·3 for
`DELAY = 2`) and sleeping the jittered delay `DELAY · (0.5 + random)`
before the successful return. -/
theorem c8_two_errors_then_success (r : ℚ) :
    (request_layer (fun n : Nat => Except.ok (decide (n < 2)))
      (fun i => Except.ok i) 2 (fun _ => r) 3).outcome = Except.ok 2 ∧
    (request_layer (fun n : Nat => Except.ok (decide (n < 2)))
      (fun i => Except.ok i) 2 (fun _ => r) 3).calls = 3 ∧
    (request_layer (fun n : Nat => Except.ok (decide (n < 2)))
      (fun i => Except.ok i) 2 (fun _ => r) 3).sleeps =
      [2 * (1 + 1), 2 * (2 + 1), 2 * (1 / 2 + r)] ∧
    (2 * (1 + 1) : ℚ) < 2 * (2 + 1) := by
  refine ⟨rfl, rfl, ?_, by norm_num⟩
  show ([2 * ((0 : ℚ) + 2), 2 * ((1 : ℚ) + 2), 2 * (1 / 2 + r)] : List ℚ) = _
  norm_num

/-- C7 counterexample: in `VirgioCrawler.crawl`, a response whose
Content-Type is `text/html` makes `get_json` raise after the request layer
has already returned — the page fetch ends with the classified error after
exactly 1 HTTP call, with no retry against the ceiling of 3. -/
theorem c7_no_retry_in_virgio_fetch :
    virgio_fetch (fun _ => Except.ok ⟨"text/html", 0⟩) 2 (fun _ => 0) 3 =
      (Except.error FetchError.contentType, 1) :=
  rfl

/-- C7 amended: a response whose Content-Type does not start with
`application/json` makes `get_json` raise the classified `QueryError`
instead of attempting to decode the body; in the cited virgio path the
error arises after the request layer returned, so the page fetch ends
after a single HTTP call with no retry, while in crawlers whose
`check_error` itself decodes the body (tatacliq, nykaafashion) the same
error is raised inside the request layer and is retried up to the
ceiling. -/
theorem c7_content_type_error_classified (resp : HttpResponse)
    (hct : resp.contentType.startsWith "application/json" = false)
    (f : Nat → Bool) :
    get_json resp = Except.error () ∧
    virgio_fetch (fun _ => Except.ok ⟨"text/html", 0⟩) 2 (fun _ => 0) 3 =
      (Except.error FetchError.contentType, 1) ∧
    (request_layer (tatacliq_check_error f) (fun _ => Except.ok resp)
      2 (fun _ => 0) 3).calls = 3 ∧
    ∃ e, (request_layer (tatacliq_check_error f) (fun _ => Except.ok resp)
      2 (fun _ => 0) 3).outcome = Except.error e := by
  have hj : get_json resp = Except.error () := by
    simp [get_json, hct]
  have hchk : tatacliq_check_error f resp = Except.error () := by
    unfold tatacliq_check_error
    rw [hj]
  have hfail : ∀ i, i < 3 →
      attempt_fails (tatacliq_check_error f) (fun _ => Except.ok resp) i = true :=
    fun i _ =>
      attempt_fails_check_raises (tatacliq_check_error f)
        (fun _ => Except.ok resp) i resp rfl hchk
  obtain ⟨hc, he⟩ :=
    requestAux_all_fail (tatacliq_check_error f) (fun _ => Except.ok resp)
      2 (fun _ => 0) 3 hfail 3 0 (by omega)
  exact ⟨hj, rfl, hc, he⟩

/-- Witness for C7 amended at the `text/html` response. -/
theorem c7_content_type_error_classified_witness :
    (⟨"text/html", 0⟩ : HttpResponse).contentType.startsWith
      "application/json" = false ∧
    (get_json ⟨"text/html", 0⟩ = Except.error () ∧
      virgio_fetch (fun _ => Except.ok ⟨"text/html", 0⟩) 2 (fun _ => 0) 3 =
        (Except.error FetchError.contentType, 1) ∧
      (request_layer (tatacliq_check_error fun _ => false)
        (fun _ => Except.ok ⟨"text/html", 0⟩) 2 (fun _ => 0) 3).calls = 3 ∧
      ∃ e, (request_layer (tatacliq_check_error fun _ => false)
        (fun _ => Except.ok ⟨"text/html", 0⟩) 2 (fun _ => 0) 3).outcome =
        Except.error e) :=
  ⟨by decide,
    c7_content_type_error_classified ⟨"text/html", 0⟩ (by decide)
      (fun _ => false)⟩

/-- C9 counterexample: requesting the unregistered name `nope` makes the
`try` body of `run_crawler` raise `KeyError`, but `run_crawler` itself
catches it and returns the ordinary per-adapter failure outcome
`("nope", False)` — the error is not surfaced out of the worker. -/
theorem c9_unknown_name_becomes_failure_outcome :
    run_crawler_body [("VIRGIO", Except.ok ())] "nope" =
      Except.error (PyExc.keyError "nope") ∧
    run_crawler [("VIRGIO", Except.ok ())] "nope" = ("nope", false) :=
  ⟨rfl, rfl⟩

/-- C9 amended: adapter names are resolved case-insensitively (a
registered adapter is found under any spelling with the same upper-cased
form), and an unregistered name raises `KeyError` inside the worker, which
the worker's own exception handler converts — without retrying — into an
ordinary failed `(name, False)` outcome rather than surfacing it. -/
theorem c9_case_insensitive_resolution (reg : Registry) (name q other : String)
    (b : Behavior) (hq : py_upper q = py_upper name)
    (habs : get_crawler reg other = none) :
    get_crawler (register reg name b) q = some b ∧
    run_crawler reg other = (other, false) := by
  constructor
  · simp [get_crawler, register, List.find?, hq]
  · simp [run_crawler, run_crawler_body, habs]

/-- Witness for C9 amended: `virgio` resolves to the adapter registered as
`Virgio`, and the unknown name `x` yields the failed outcome. -/
theorem c9_case_insensitive_resolution_witness :
    (py_upper "virgio" = py_upper "Virgio" ∧
      get_crawler ([] : Registry) "x" = none) ∧
    (get_crawler (register [] "Virgio" (Except.ok ())) "virgio" =
        some (Except.ok ()) ∧
      run_crawler ([] : Registry) "x" = ("x", false)) :=
  ⟨⟨by decide, rfl⟩,
    c9_case_insensitive_resolution [] "Virgio" "virgio" "x" (Except.ok ())
      (by decide) rfl⟩

/-- Helper: with pairwise-distinct upper-cased keys, looking up an entry's
own key finds exactly that entry. -/
theorem get_crawler_self (reg : Registry) (k : String) (b : Behavior)
    (hmem : (k, b) ∈ reg) (hnodup : (reg.map Prod.fst).Nodup)
    (hnorm : ∀ p ∈ reg, py_upper p.1 = p.1) :
    get_crawler reg k = some b := by
  induction reg with
  | nil => simp at hmem
  | cons hd tl ih =>
    have hk : py_upper k = k := by
      have := hnorm (k, b) hmem
      simpa using this
    rcases List.mem_cons.mp hmem with h | h
    · rw [← h]
      simp [get_crawler, List.find?, hk]
    · have hkmem : k ∈ tl.map Prod.fst := by
        exact List.mem_map_of_mem Prod.fst h
      have hne : hd.1 ≠ k := by
        intro he
        rw [List.map_cons, List.nodup_cons] at hnodup
        exact hnodup.1 (he ▸ hkmem)
      have htl : get_crawler tl k = some b :=
        ih h (by rw [List.map_cons, List.nodup_cons] at hnodup; exact hnodup.2)
          (fun p hp => hnorm p (List.mem_cons_of_mem hd hp))
      simp only [get_crawler, List.find?, hk] at htl ⊢
      have hbeq : (hd.1 == k) = false := by
        simp [hne]
      rw [hbeq]
      exact htl

/-- Helper: with distinct, upper-cased registered names, orchestration
produces, in order, one `(name, success)` outcome per registry entry. -/
theorem orchestrate_outcomes (reg : Registry)
    (hnodup : (reg.map Prod.fst).Nodup)
    (hnorm : ∀ p ∈ reg, py_upper p.1 = p.1) :
    orchestrate reg = reg.map (fun p => (p.1, succeeded p.2)) := by
  unfold orchestrate available_crawlers
  rw [List.map_map]
  apply List.map_congr_left
  intro p hp
  obtain ⟨k, bb⟩ := p
  have hget : get_crawler reg k = some bb :=
    get_crawler_self reg k bb hp hnodup hnorm
  cases bb with
  | ok u => simp [run_crawler, run_crawler_body, hget, succeeded]
  | error e => simp [run_crawler, run_crawler_body, hget, succeeded]

/-- C5: with distinct upper-cased registered names, running all adapters
where exactly one raises an unhandled fault yields one outcome per adapter
(no worker is cancelled and the orchestrator collects them all), exactly
one outcome is marked failed, and every non-raising adapter's outcome is
`(name, True)`. -/
theorem c5_single_fault_isolated (reg : Registry)
    (hnodup : (reg.map Prod.fst).Nodup)
    (hnorm : ∀ p ∈ reg, py_upper p.1 = p.1)
    (hone : reg.countP (fun p => !succeeded p.2) = 1) :
    (orchestrate reg).length = reg.length ∧
    (orchestrate reg).countP (fun o => !o.2) = 1 ∧
    ∀ p ∈ reg, succeeded p.2 = true → (p.1, true) ∈ orchestrate reg := by
  rw [orchestrate_outcomes reg hnodup hnorm]
  refine ⟨by simp, ?_, ?_⟩
  · rw [List.countP_map]
    exact hone
  · intro p hp hsucc
    have h2 := List.mem_map_of_mem (fun p => (p.1, succeeded p.2)) hp
    simpa [hsucc] using h2

/-- Witness for C5 with three registered adapters of which exactly `B`
raises. -/
theorem c5_single_fault_isolated_witness :
    ((([("A", Except.ok ()), ("B", Except.error ()), ("C", Except.ok ())] :
        Registry).map Prod.fst).Nodup ∧
      (∀ p ∈ ([("A", Except.ok ()), ("B", Except.error ()),
          ("C", Except.ok ())] : Registry), py_upper p.1 = p.1) ∧
      ([("A", Except.ok ()), ("B", Except.error ()),
        ("C", Except.ok ())] : Registry).countP
          (fun p => !succeeded p.2) = 1) ∧
    ((orchestrate [("A", Except.ok ()), ("B", Except.error ()),
        ("C", Except.ok ())]).length =
      ([("A", Except.ok ()), ("B", Except.error ()),
        ("C", Except.ok ())] : Registry).length ∧
      (orchestrate [("A", Except.ok ()), ("B", Except.error ()),
        ("C", Except.ok ())]).countP (fun o => !o.2) = 1 ∧
      ∀ p ∈ ([("A", Except.ok ()), ("B", Except.error ()),
          ("C", Except.ok ())] : Registry), succeeded p.2 = true →
        (p.1, true) ∈ orchestrate [("A", Except.ok ()),
          ("B", Except.error ()), ("C", Except.ok ())]) :=
  ⟨⟨by decide, by decide, by decide⟩,
    c5_single_fault_isolated
      [("A", Except.ok ()), ("B", Except.error ()), ("C", Except.ok ())]
      (by decide) (by decide) (by decide)⟩

end Crawler
